import Mathlib

/-!
Verification of the jenkins-generator artifact synthesis engine.

The TypeScript generators (`CloudProviderService`, `IaCService`,
`DockerComposeService`, `NotificationService`) build multi-line text
artifacts from a configuration record.  Each generator is embedded here as a
pure function producing the artifact's list of lines: a TypeScript template
literal `"a\nb\nc"` is represented as the list `["a", "b", "c"]`, and a
template that starts with a newline contributes a leading `""` line at its
splice site.  Braces, apostrophes and backticks occurring in the emitted
text are written with `\x7b`, `\x7d`, `\x27` and `\x60` escapes.

JavaScript-specific behaviour is modelled explicitly: `x || d` defaulting
treats `0`, `undefined` and `""` as falsy (`jsOrNat`, `truthyOptStr`), a
property read on an object that lacks the property yields a falsy value
(`Credentials.useOIDC` on the DigitalOcean variant), and `parts[i]` out of
bounds yields `undefined`, which string interpolation renders as
`"undefined"`.
-/

/-! ## String toolkit -/

/-- Character-list incompatibility: the two lists differ at some position
where both are defined.  Two strings extending incompatible lists can never
be equal. -/
def chIncomp : List Char → List Char → Bool
  | a :: as, b :: bs => a != b || chIncomp as bs
  | _, _ => false

theorem chIncomp_eq_false_of_append_eq :
    ∀ {p q : List Char} (x y : List Char), p ++ x = q ++ y → chIncomp p q = false := by
  intro p
  induction p with
  | nil => intro q x y _; cases q <;> rfl
  | cons a as ih =>
    intro q x y h
    cases q with
    | nil => rfl
    | cons b bs =>
      simp only [List.cons_append, List.cons.injEq] at h
      obtain ⟨rfl, h2⟩ := h
      simp [chIncomp, ih _ _ h2]

theorem strData_inj {a b : String} (h : a.data = b.data) : a = b := by
  cases a; cases b; exact congrArg String.mk h

/-- Strings with incompatible literal heads are distinct, whatever the tails. -/
theorem strNe (p q x y : String) (h : chIncomp p.data q.data = true) :
    p ++ x ≠ q ++ y := by
  intro he
  have hd := congrArg String.data he
  simp only [String.data_append] at hd
  rw [chIncomp_eq_false_of_append_eq _ _ hd] at h
  exact Bool.false_ne_true h

/-- A string with a literal head incompatible with `t` is distinct from `t`. -/
theorem strNeL (p x t : String) (h : chIncomp p.data t.data = true) : p ++ x ≠ t := by
  intro he
  have hd := congrArg String.data he
  simp only [String.data_append] at hd
  have h2 : p.data ++ x.data = t.data ++ [] := by simpa using hd
  rw [chIncomp_eq_false_of_append_eq _ _ h2] at h
  exact Bool.false_ne_true h

/-- Symmetric version of `strNeL`. -/
theorem strNeR (t q y : String) (h : chIncomp t.data q.data = true) : t ≠ q ++ y := by
  intro he
  have hd := congrArg String.data he
  simp only [String.data_append] at hd
  have h2 : t.data ++ [] = q.data ++ y.data := by simpa using hd
  rw [chIncomp_eq_false_of_append_eq _ _ h2] at h
  exact Bool.false_ne_true h

/-- Left cancellation for string append, contrapositive form. -/
theorem strCancel (a x y : String) (h : x ≠ y) : a ++ x ≠ a ++ y := by
  intro he
  apply h
  have hd := congrArg String.data he
  simp only [String.data_append] at hd
  exact strData_inj (List.append_cancel_left hd)

/-- Right cancellation for string append, contrapositive form. -/
theorem strCancelR (x y a : String) (h : x ≠ y) : x ++ a ≠ y ++ a := by
  intro he
  apply h
  have hd := congrArg String.data he
  simp only [String.data_append] at hd
  exact strData_inj (List.append_cancel_right hd)

theorem strAssoc (a b c : String) : (a ++ b) ++ c = a ++ (b ++ c) := by
  apply strData_inj
  simp [String.data_append, List.append_assoc]

/-- Kernel-reducible check that `pat` is a prefix of `s` (as char lists). -/
def chPre : List Char → List Char → Bool
  | [], _ => true
  | _ :: _, [] => false
  | a :: as, b :: bs => a == b && chPre as bs

/-- Kernel-reducible substring search. -/
def chSub (s pat : List Char) : Bool :=
  chPre pat s ||
    match s with
    | [] => false
    | _ :: as => chSub as pat

/-- `pat` occurs as a contiguous substring of `s`. -/
def strContainsSub (s pat : String) : Bool := chSub s.data pat.data

/-- JavaScript `String.prototype.split` with a single-character separator. -/
def chSplit (sep : Char) : List Char → List (List Char)
  | [] => [[]]
  | c :: cs =>
    let r := chSplit sep cs
    if c == sep then [] :: r
    else
      match r with
      | h :: t => (c :: h) :: t
      | [] => [[c]]

def jsSplit (s : String) (sep : Char) : List String := (chSplit sep s.data).map String.mk

/-- JavaScript `String.prototype.toLowerCase` (ASCII). -/
def strLower (s : String) : String := String.mk (s.data.map Char.toLower)

/-- Occurrences of the exact line `m` in a line list. -/
def countLine (ls : List String) (m : String) : Nat := ls.countP (fun l => l == m)

theorem countLine_append (a b : List String) (m : String) :
    countLine (a ++ b) m = countLine a m + countLine b m := List.countP_append _ _ _

theorem countLine_eq_zero_of_not_mem {ls : List String} {m : String} (h : m ∉ ls) :
    countLine ls m = 0 := by
  apply List.countP_eq_zero.mpr
  intro l hl hb
  exact h (by rwa [eq_of_beq hb] at hl)

theorem countLine_cons_self (ls : List String) (m : String) :
    countLine (m :: ls) m = countLine ls m + 1 := by
  simp [countLine, List.countP_cons]

theorem countLine_cons_ne (ls : List String) {l m : String} (h : l ≠ m) :
    countLine (l :: ls) m = countLine ls m := by
  simp only [countLine, List.countP_cons]
  simp [beq_eq_false_iff_ne.mpr h]

/-! ## JavaScript value helpers -/

/-- JavaScript `x || d` on an optional number: `undefined` and `0` are falsy. -/
def jsOrNat (o : Option Nat) (d : Nat) : Nat :=
  match o with
  | none => d
  | some n => if n = 0 then d else n

/-- JavaScript truthiness of an optional string: `undefined` and `""` are falsy. -/
def truthyOptStr (o : Option String) : Bool :=
  match o with
  | none => false
  | some s => !(s == "")

/-! ## Configuration model (src/interfaces/config.interface.ts) -/

structure EnvVariable where
  key : String
  value : Option String
  isSecret : Bool
  description : String
deriving DecidableEq, Repr

structure ExternalService where
  type : String
  name : String
  service : String
  envVariables : List EnvVariable
  connectionString : Option String
  requiresInfrastructure : Bool
deriving DecidableEq, Repr

structure ProjectConfig where
  projectName : String
  projectType : String
  language : String
  repository : String
  branch : String
  hasDockerfile : Bool
  dockerfilePath : Option String
  runTests : Bool
  testCommand : Option String
  buildCommand : Option String
  requiresEnvFile : Bool
  envFilePath : Option String
  externalServices : List ExternalService
deriving DecidableEq, Repr

structure AWSCredentials where
  accessKeyId : Option String
  secretAccessKey : Option String
  region : String
  useOIDC : Bool
  oidcRoleArn : Option String
deriving DecidableEq, Repr

structure AzureCredentials where
  subscriptionId : String
  clientId : String
  clientSecret : Option String
  tenantId : String
  useOIDC : Bool
deriving DecidableEq, Repr

structure GCPCredentials where
  projectId : String
  keyFile : Option String
  region : String
  useOIDC : Bool
deriving DecidableEq, Repr

structure DOCredentials where
  apiToken : String
  region : String
deriving DecidableEq, Repr

/-- The provider-specific credential variant.  The original code stores one of
the four records and reads properties off it duck-typed (`credentials as any`). -/
inductive Credentials where
  | aws (c : AWSCredentials)
  | azure (c : AzureCredentials)
  | gcp (c : GCPCredentials)
  | digitalocean (c : DOCredentials)
deriving DecidableEq, Repr

/-- Duck-typed read of `credentials.useOIDC`; the DigitalOcean variant has no
such property, so the read yields `undefined`, which is falsy. -/
def Credentials.useOIDC : Credentials → Bool
  | .aws c => c.useOIDC
  | .azure c => c.useOIDC
  | .gcp c => c.useOIDC
  | .digitalocean _ => false

/-- Duck-typed read of `credentials.oidcRoleArn`; only the AWS variant has it. -/
def Credentials.oidcRoleArn : Credentials → Option String
  | .aws c => c.oidcRoleArn
  | _ => none

structure DeploymentConfig where
  tier : String
  autoScaling : Bool
  minInstances : Option Nat
  maxInstances : Option Nat
  healthCheckPath : String
  port : Nat
  useLoadBalancer : Bool
  loadBalancerUrl : Option String
  deploymentStrategy : String
  environmentVariables : List (String × String)
deriving DecidableEq, Repr

structure ManagedService where
  type : String
  service : String
  tier : String
  autoProvision : Bool
  existingResourceId : Option String
deriving DecidableEq, Repr

/-- The provider tag is kept as a string: the original `switch (config.provider)`
dispatch can receive arbitrary tags at runtime (e.g. from a hand-edited
configuration file), which is what the unsupported-provider claims are about. -/
structure CloudConfig where
  provider : String
  credentials : Credentials
  region : String
  instanceType : String
  deploymentConfig : DeploymentConfig
  managedServices : List ManagedService
deriving DecidableEq, Repr

structure NotificationPlatform where
  type : String
  webhook : Option String
  apiKey : Option String
deriving DecidableEq, Repr

structure NotificationConfig where
  email : String
  platforms : List NotificationPlatform
  webhookUrls : Option (List (String × String))
deriving DecidableEq, Repr

structure JenkinsConfig where
  agentLabel : String
  timeout : Nat
  retryCount : Nat
  environmentVariables : List (String × String)
deriving DecidableEq, Repr

structure CICDConfig where
  project : ProjectConfig
  cloud : CloudConfig
  notifications : NotificationConfig
  jenkinsConfig : JenkinsConfig
deriving DecidableEq, Repr

/-! ## CloudProviderService (cloud-provider.service.ts)

Each deployment-script generator is the line list of the template literal it
returns.  The outer template begins with a newline and splices `authLogic`
(itself beginning with a newline) after four spaces, producing the leading
`""` and `"    "` lines; the same happens at the `generateDeployedUrlExport`
splice, and every template ends with `"\n    "`, producing the final `"    "`
line. -/

namespace CloudProviderService

/-- Lines appended by `generateDeployedUrlExport` (the final URL-resolution
block).  `defaultUrlScript` is the provider-specific runtime lookup, passed
already in its spliced (4-space indented) form. -/
def generateDeployedUrlExport (deploymentConfig : DeploymentConfig)
    (defaultUrlScript : List String) : List String :=
  if deploymentConfig.useLoadBalancer && truthyOptStr deploymentConfig.loadBalancerUrl then
    ["    export DEPLOYED_URL=\"" ++ deploymentConfig.loadBalancerUrl.getD "" ++ "\"",
     "    echo \"DEPLOYED_URL=$DEPLOYED_URL\" >> deployment.env",
     "    echo \"Deployment completed. Reachable at Load Balancer: $DEPLOYED_URL\""]
  else
    defaultUrlScript ++
    ["    echo \"DEPLOYED_URL=$DEPLOYED_URL\" >> deployment.env",
     "    echo \"Deployment completed. Reachable at: $DEPLOYED_URL\""]

/-- Static-credential `authLogic` of the AWS generator. -/
def awsStaticAuth (region : String) : List String :=
  ["    #AWS Deployment Configuration",
   "    aws configure set aws_access_key_id $\x7bAWS_ACCESS_KEY_ID\x7d",
   "    aws configure set aws_secret_access_key $\x7bAWS_SECRET_ACCESS_KEY\x7d",
   "    aws configure set region " ++ region]

/-- OIDC `authLogic` of the AWS generator. -/
def awsOidcAuth (oidcRoleArn region : String) : List String :=
  ["    # AWS OIDC Authentication",
   "    echo \"Authenticating via OIDC...\"",
   "    export $(printf \"AWS_ACCESS_KEY_ID=%s AWS_SECRET_ACCESS_KEY=%s AWS_SESSION_TOKEN=%s\" \\",
   "    $(aws sts assume-role-with-web-identity \\",
   "    --role-arn " ++ oidcRoleArn ++ " \\",
   "    --role-session-name JenkinsSession \\",
   "    --web-identity-token $\x7bAWS_WEB_IDENTITY_TOKEN\x7d \\",
   "    --query \"Credentials.[AccessKeyId,SecretAccessKey,SessionToken]\" \\",
   "    --output text))",
   "    aws configure set region " ++ region]

/-- The create-or-update block of the AWS script: probe whether the ECS
service exists, create it if absent, otherwise update it with the configured
deployment strategy (the branch on the strategy is emitted into the script
and taken at run time; its text always carries all three branches). -/
def awsServiceUpdateBlock (n strat : String) (minInstances : Option Nat) : List String :=
  ["    if [ \"$SERVICE_EXISTS\" != \"ACTIVE\" ]; then",
   "        echo \"Creating new ECS service...\"",
   "        aws ecs create-service \\",
   "            --cluster " ++ n ++ "-cluster \\",
   "            --service-name " ++ n ++ "-service \\",
   "            --task-definition " ++ n ++ " \\",
   "            --desired-count " ++ toString (jsOrNat minInstances 1) ++ " \\",
   "            --launch-type FARGATE \\",
   "            --network-configuration \"awsvpcConfiguration=\x7bsubnets=[$\x7bSUBNET_IDS\x7d], securityGroups=[$\x7bSECURITY_GROUP_IDS\x7d], assignPublicIp=ENABLED\x7d\"",
   "    else",
   "        echo \"Updating existing ECS service with " ++ strat ++ " strategy...\"",
   "        if [ \"" ++ strat ++ "\" == \"blue-green\" ]; then",
   "            echo \"Performing Blue-Green deployment...\"",
   "            # Simulating blue-green by creating/updating a \x27green\x27 version",
   "            aws ecs update-service --cluster " ++ n ++ "-cluster --service " ++ n
     ++ "-service --task-definition " ++ n ++ " --force-new-deployment",
   "        elif [ \"" ++ strat ++ "\" == \"canary\" ]; then",
   "            echo \"Performing Canary deployment (10% traffic)...\"",
   "            aws ecs update-service --cluster " ++ n ++ "-cluster --service " ++ n
     ++ "-service --task-definition " ++ n ++ " --desired-count $(( "
     ++ toString (jsOrNat minInstances 1) ++ " + 1 ))",
   "        else",
   "            aws ecs update-service --cluster " ++ n ++ "-cluster --service " ++ n
     ++ "-service --task-definition " ++ n ++ " --force-new-deployment",
   "        fi",
   "    fi"]

def generateAWSDeploymentScript (config : CloudConfig) (dockerImageName : String) :
    List String :=
  let region := config.region
  let dc := config.deploymentConfig
  let n := dockerImageName
  let authLogic :=
    if config.credentials.useOIDC && truthyOptStr config.credentials.oidcRoleArn then
      awsOidcAuth (config.credentials.oidcRoleArn.getD "") region
    else awsStaticAuth region
  ["", "    "] ++ authLogic ++
  ["",
   "    #Create/Update ECS Cluster",
   "    aws ecs create-cluster --cluster-name " ++ n ++ "-cluster || true",
   "",
   "    #Register Task Definition",
   "    cat >task-definition.json << EOF",
   "    \x7b",
   "        \"family\": \"" ++ n ++ "\",",
   "        \"networkMode\": \"awsvpc\",",
   "        \"requiresCompatibility\": [\"FARGATE\"],",
   "        \"cpu\": \"256\",",
   "        \"memory\": \"512\",",
   "        \"containerDefinitions\": [",
   "        \x7b",
   "            \"name\": \"" ++ n ++ "\",",
   "            \"image\": \"$\x7bDOCKER_IMAGE\x7d\",",
   "            \"portMappings\": [",
   "                \x7b",
   "                    \"containerPort\": " ++ toString dc.port ++ ",",
   "                    \"protocol\": \"tcp\"",
   "                \x7d",
   "            ],",
   "            \"logConfiguration\": \x7b",
   "                \"logDriver\": \"awslogs\",",
   "                \"options\": \x7b",
   "                    \"awslogs-group\": \"/ecs/" ++ n ++ "\",",
   "                    \"awslogs-region\": \"" ++ region ++ "\",",
   "                    \"awslogs-stream-prefix\": \"ecs\"",
   "                \x7d",
   "            \x7d",
   "        \x7d],",
   "        \"healthCheck\": \x7b",
   "            \"command\": [\"CMD-SHELL\", \"curl -f http://localhost:" ++ toString dc.port
     ++ dc.healthCheckPath ++ " || exit 1\"],",
   "            \"interval\": 30,",
   "            \"timeout\": 5,",
   "            \"retries\": 3",
   "        \x7d",
   "    \x7d",
   "    EOF",
   "",
   "    aws ecs register-task-definition --cli-input-json file://task-definition.json",
   "",
   "    # Check if ECS service exists",
   "    SERVICE_EXISTS=$(aws ecs describe-services --cluster " ++ n ++ "-cluster --services "
     ++ n ++ "-service --query \x27services[0].status\x27 --output text || echo \"MISSING\")",
   ""] ++
  awsServiceUpdateBlock n dc.deploymentStrategy dc.minInstances ++
  ["",
   "    "] ++
  generateDeployedUrlExport dc
    ["    TASK_ARN=$(aws ecs list-tasks --cluster " ++ n ++ "-cluster --service-name " ++ n
       ++ "-service --query \x27taskArns[0]\x27 --output text)",
     "    ENI_ID=$(aws ecs describe-tasks --cluster " ++ n
       ++ "-cluster --tasks $TASK_ARN --query \x27tasks[0].attachments[0].details[?name==\x60networkInterfaceId\x60].value\x27 --output text)",
     "    PUBLIC_IP=$(aws ec2 describe-network-interfaces --network-interface-ids $ENI_ID --query \x27NetworkInterfaces[0].Association.PublicIp\x27 --output text)",
     "    export DEPLOYED_URL=\"http://$PUBLIC_IP:" ++ toString dc.port ++ "\""] ++
  ["    "]

/-- Static-credential `authLogic` of the Azure generator. -/
def azureStaticAuth : List String :=
  ["    # Azure Deployment Configuration",
   "    az login --service-principal \\",
   "        -u $\x7bAZURE_CLIENT_ID\x7d \\",
   "        -p $\x7bAZURE_CLIENT_SECRET\x7d \\",
   "        -t $\x7bAZURE_TENANT_ID\x7d"]

/-- OIDC `authLogic` of the Azure generator. -/
def azureOidcAuth : List String :=
  ["    # Azure OIDC Authentication",
   "    echo \"Authenticating via OIDC...\"",
   "    az login --service-principal \\",
   "        -u $\x7bAZURE_CLIENT_ID\x7d \\",
   "        -t $\x7bAZURE_TENANT_ID\x7d \\",
   "        --federated-token $\x7bAZURE_FEDERATED_TOKEN\x7d"]

def generateAzureDeploymentScript (config : CloudConfig) (dockerImageName : String) :
    List String :=
  let dc := config.deploymentConfig
  let n := dockerImageName
  let authLogic := if config.credentials.useOIDC then azureOidcAuth else azureStaticAuth
  ["", "    "] ++ authLogic ++
  ["    ",
   "    az account set --subscription $\x7bAZURE_SUBSCRIPTION_ID\x7d",
   "",
   "    # Create Resource Group",
   "    az group create --name $\x7bRESOURCE_GROUP_NAME\x7d --location $\x7bREGION\x7d",
   "    ",
   "    # Create Container Instance",
   "    az container create \\",
   "        --resource-group $\x7bRESOURCE_GROUP\x7d \\",
   "        --name " ++ n ++ " \\",
   "        --image $\x7bDOCKER_IMAGE\x7d \\",
   "        --cpu 1 \\",
   "        --memory 1.5 \\",
   "        --registry-login-server $\x7bACR_LOGIN_SERVER\x7d \\",
   "        --registry-username $\x7bACR_USERNAME\x7d \\",
   "        --registry-password $\x7bACR_PASSWORD\x7d \\",
   "        --dns-name-label " ++ n ++ " \\",
   "        --ports " ++ toString dc.port ++ " \\",
   "        --environment-variables NODE_ENV=production \\",
   "        --restart-policy Always",
   "",
   "    "] ++
  generateDeployedUrlExport dc
    ["    export DEPLOYED_URL=\"http://" ++ n ++ ".$\x7bAZURE_REGION\x7d.azurecontainer.io:"
       ++ toString dc.port ++ "\""] ++
  ["    "]

/-- Static-credential `authLogic` of the GCP generator. -/
def gcpStaticAuth (region : String) : List String :=
  ["    # GCP Deployment Configuration",
   "    gcloud auth activate-service-account --key-file=$\x7bGCP_KEY_FILE\x7d",
   "    gcloud config set project $\x7bGCP_PROJECT_ID\x7d",
   "    gcloud config set compute/region " ++ region]

/-- OIDC `authLogic` of the GCP generator. -/
def gcpOidcAuth (region : String) : List String :=
  ["    # GCP OIDC Authentication",
   "    echo \"Authenticating via OIDC...\"",
   "    echo $\x7bGCP_OIDC_TOKEN\x7d > oidc_token.txt",
   "    gcloud auth login --cred-file=oidc_token.txt",
   "    gcloud config set project $\x7bGCP_PROJECT_ID\x7d",
   "    gcloud config set compute/region " ++ region]

def generateGCPDeploymentScript (config : CloudConfig) (dockerImageName : String) :
    List String :=
  let region := config.region
  let dc := config.deploymentConfig
  let n := dockerImageName
  let authLogic := if config.credentials.useOIDC then gcpOidcAuth region else gcpStaticAuth region
  ["", "    "] ++ authLogic ++
  ["",
   "    # Deploy to Cloud Run",
   "    gcloud run deploy " ++ n ++ " \\",
   "        --image $\x7bDOCKER_IMAGE\x7d \\",
   "        --platform managed \\",
   "        --port " ++ toString dc.port ++ " \\",
   "        --memory 512Mi \\",
   "        --cpu 1 \\",
   "        --min-instances " ++ toString (jsOrNat dc.minInstances 0) ++ " \\",
   "        --max-instances " ++ toString (jsOrNat dc.maxInstances 1) ++ " \\",
   "        --set-env-vars NODE_ENV=production \\",
   "        --region " ++ region ++ " \\",
   "        --format=\x27value(status.url)\x27 > gcp_url.txt",
   "    ",
   "    "] ++
  generateDeployedUrlExport dc ["    export DEPLOYED_URL=$(cat gcp_url.txt)"] ++
  ["    "]

def generateDigitalOceanDeploymentScript (config : CloudConfig) (dockerImageName : String) :
    List String :=
  let region := config.region
  let dc := config.deploymentConfig
  let n := dockerImageName
  ["",
   "    # DigitalOcean Deployment Configuration",
   "    doctl auth init --access-token $\x7bDO_API_TOKEN\x7d",
   "",
   "    #Create App Platform APP",
   "    cat > app-spec.yaml << EOF",
   "    name: " ++ n,
   "    region: " ++ region,
   "    services:",
   "        - name: " ++ n,
   "          image: ",
   "            registry-type: DOCKER_HUB",
   "            repository: $\x7bDOCKER_IMAGE\x7d",
   "          http_port: " ++ toString dc.port,
   "          instance_count: " ++ toString (jsOrNat dc.minInstances 1),
   "          instance_size_slug: basic-xxs",
   "          health-check:",
   "            http_path: " ++ dc.healthCheckPath,
   "          routes:",
   "            - path: /",
   "",
   "    EOF",
   "",
   "    # Create or update app",
   "    APP_ID=$(doctl apps list --format ID --no-header | head -n 1)",
   "",
   "    if [ -z \"$APP_ID\" ]; then",
   "        doctl apps create --spec app-spec.yaml",
   "    else",
   "        doctl apps update $APP_ID --spec app-spec.yaml",
   "    fi",
   "",
   "    "] ++
  generateDeployedUrlExport dc
    ["    export DEPLOYED_URL=$(doctl apps get $APP_ID --format DefaultIngress --no-header)"] ++
  ["    "]

/-- The `switch (config.provider)` dispatch; the default branch throws
`Unsupported cloud provider: ...`, modelled as `Except.error`. -/
def generateDeploymentScript (config : CloudConfig) (dockerImageName : String) :
    Except String (List String) :=
  if config.provider = "aws" then .ok (generateAWSDeploymentScript config dockerImageName)
  else if config.provider = "azure" then
    .ok (generateAzureDeploymentScript config dockerImageName)
  else if config.provider = "gcp" then .ok (generateGCPDeploymentScript config dockerImageName)
  else if config.provider = "digitalocean" then
    .ok (generateDigitalOceanDeploymentScript config dockerImageName)
  else .error ("Unsupported cloud provider: " ++ config.provider)

end CloudProviderService

/-! ## IaCService (src/services/iac.service.ts) -/

namespace IaCService

def generateAWSTerraform (config : CloudConfig) (dockerImageName : String) : List String :=
  ["",
   "provider \"aws\" \x7b",
   "  region = \"" ++ config.region ++ "\"",
   "\x7d",
   "",
   "resource \"aws_ecs_cluster\" \"main\" \x7b",
   "  name = \"" ++ dockerImageName ++ "-cluster\"",
   "\x7d",
   "",
   "resource \"aws_iam_role\" \"ecs_task_execution_role\" \x7b",
   "  name = \"" ++ dockerImageName ++ "-task-exec-role\"",
   "",
   "  assume_role_policy = jsonencode(\x7b",
   "    Version = \"2012-10-17\"",
   "    Statement = [",
   "      \x7b",
   "        Action = \"sts:AssumeRole\"",
   "        Effect = \"Allow\"",
   "        Principal = \x7b",
   "          Service = \"ecs-tasks.amazonaws.com\"",
   "        \x7d",
   "      \x7d",
   "    ]",
   "  \x7d)",
   "\x7d",
   "",
   "resource \"aws_iam_role_policy_attachment\" \"ecs_task_execution_role_policy\" \x7b",
   "  role       = aws_iam_role.ecs_task_execution_role.name",
   "  policy_arn = \"arn:aws:iam::aws:policy/service-role/AmazonECSTaskExecutionRolePolicy\"",
   "\x7d"]

def generateAzureTerraform (config : CloudConfig) (dockerImageName : String) : List String :=
  ["",
   "provider \"azurerm\" \x7b",
   "  features \x7b\x7d",
   "\x7d",
   "",
   "resource \"azurerm_resource_group\" \"main\" \x7b",
   "  name     = \"$\x7bvar.resource_group_name\x7d\"",
   "  location = \"" ++ config.region ++ "\"",
   "\x7d",
   "",
   "resource \"azurerm_container_group\" \"main\" \x7b",
   "  name                = \"" ++ dockerImageName ++ "\"",
   "  location            = azurerm_resource_group.main.location",
   "  resource_group_name = azurerm_resource_group.main.name",
   "  ip_address_type     = \"Public\"",
   "  dns_name_label      = \"" ++ dockerImageName ++ "\"",
   "  os_type             = \"Linux\"",
   "",
   "  container \x7b",
   "    name   = \"" ++ dockerImageName ++ "\"",
   "    image  = \"$\x7bvar.docker_image\x7d\"",
   "    cpu    = \"1\"",
   "    memory = \"1.5\"",
   "",
   "    ports \x7b",
   "      port     = " ++ toString config.deploymentConfig.port,
   "      protocol = \"TCP\"",
   "    \x7d",
   "  \x7d",
   "\x7d"]

def generateGCPTerraform (config : CloudConfig) (dockerImageName : String) : List String :=
  ["",
   "provider \"google\" \x7b",
   "  project = \"$\x7bvar.gcp_project_id\x7d\"",
   "  region  = \"" ++ config.region ++ "\"",
   "\x7d",
   "",
   "resource \"google_cloud_run_service\" \"main\" \x7b",
   "  name     = \"" ++ dockerImageName ++ "\"",
   "  location = \"" ++ config.region ++ "\"",
   "",
   "  template \x7b",
   "    spec \x7b",
   "      containers \x7b",
   "        image = \"$\x7bvar.docker_image\x7d\"",
   "        ports \x7b",
   "          container_port = " ++ toString config.deploymentConfig.port,
   "        \x7d",
   "      \x7d",
   "    \x7d",
   "  \x7d",
   "",
   "  traffic \x7b",
   "    percent         = 100",
   "    latest_revision = true",
   "  \x7d",
   "\x7d",
   "",
   "resource \"google_cloud_run_service_iam_member\" \"public_access\" \x7b",
   "  service  = google_cloud_run_service.main.name",
   "  location = google_cloud_run_service.main.location",
   "  role     = \"roles/run.invoker\"",
   "  member   = \"allUsers\"",
   "\x7d"]

def generateDOTerraform (config : CloudConfig) (dockerImageName : String) : List String :=
  ["",
   "provider \"digitalocean\" \x7b",
   "  token = \"$\x7bvar.do_token\x7d\"",
   "\x7d",
   "",
   "resource \"digitalocean_app\" \"main\" \x7b",
   "  spec \x7b",
   "    name   = \"" ++ dockerImageName ++ "\"",
   "    region = \"" ++ config.region ++ "\"",
   "",
   "    service \x7b",
   "      name               = \"" ++ dockerImageName ++ "\"",
   "      instance_count     = " ++ toString (jsOrNat config.deploymentConfig.minInstances 1),
   "      instance_size_slug = \"basic-xxs\"",
   "",
   "      image \x7b",
   "        registry_type = \"DOCKER_HUB\"",
   "        repository    = \"$\x7bvar.docker_image\x7d\"",
   "      \x7d",
   "",
   "      http_port = " ++ toString config.deploymentConfig.port,
   "",
   "      health_check \x7b",
   "        http_path = \"" ++ config.deploymentConfig.healthCheckPath ++ "\"",
   "      \x7d",
   "    \x7d",
   "  \x7d",
   "\x7d"]

/-- The `switch (config.provider)` dispatch of `generateTerraformConfig`.  Unlike
the deployment-script dispatch, the default branch silently returns the empty
string (modelled as the empty line list) instead of throwing. -/
def generateTerraformConfig (config : CloudConfig) (dockerImageName : String) : List String :=
  if config.provider = "aws" then generateAWSTerraform config dockerImageName
  else if config.provider = "azure" then generateAzureTerraform config dockerImageName
  else if config.provider = "gcp" then generateGCPTerraform config dockerImageName
  else if config.provider = "digitalocean" then generateDOTerraform config dockerImageName
  else []

end IaCService

/-! ## DockerComposeService (docker-compose.service.ts)

The compose document is built as a JavaScript object and serialized by the
ad hoc recursive `yamlify` writer.  In the compose path every scalar and
array element is a string, so the document tree is modelled by `Yaml` with
string scalars, string arrays and nested mappings (association lists keep
JavaScript object insertion order). -/

inductive Yaml where
  | s (v : String)
  | arr (items : List String)
  | obj (entries : List (String × Yaml))
deriving Repr

namespace DockerComposeService

theorem length_dropWhile_le {α : Type} (p : α → Bool) :
    ∀ l : List α, (l.dropWhile p).length ≤ l.length := by
  intro l
  induction l with
  | nil => simp
  | cons a as ih =>
    by_cases h : p a
    · simp only [List.dropWhile_cons, h, if_true]
      exact Nat.le_succ_of_le ih
    · simp [List.dropWhile_cons, h]

/-- `service.name.toLowerCase().replace(/\s+/g, '-')`: each maximal run of
whitespace becomes a single hyphen. -/
def collapseWs : List Char → List Char
  | [] => []
  | c :: cs =>
    if c.isWhitespace then '-' :: collapseWs (cs.dropWhile Char.isWhitespace)
    else c :: collapseWs cs
termination_by l => l.length
decreasing_by
  · simp only [List.length_cons]
    exact Nat.lt_succ_of_le (length_dropWhile_le _ _)
  · simp

def getServiceName (service : ExternalService) : String :=
  String.mk (collapseWs (strLower service.name).data)

/-- The fixed lookup table of `getServiceConfig`, keyed on the lower-cased
concrete product identifier; unmatched identifiers fall back to the inert
`alpine` placeholder. -/
def getServiceConfig (service : ExternalService) : Yaml :=
  if strLower service.service = "postgresql" then
    .obj [("image", .s "postgres:latest"),
          ("environment", .obj [("POSTGRES_USER", .s "user"),
                                ("POSTGRES_PASSWORD", .s "password"),
                                ("POSTGRES_DB", .s "app_db")]),
          ("ports", .arr ["5432:5432"])]
  else if strLower service.service = "mongodb" then
    .obj [("image", .s "mongo:latest"), ("ports", .arr ["27017:27017"])]
  else if strLower service.service = "redis" then
    .obj [("image", .s "redis:latest"), ("ports", .arr ["6379:6379"])]
  else if strLower service.service = "mysql" ∨ strLower service.service = "mariadb" then
    .obj [("image", .s (if strLower service.service = "mysql" then "mysql:latest"
                        else "mariadb:latest")),
          ("environment", .obj [("MYSQL_ROOT_PASSWORD", .s "password"),
                                ("MYSQL_DATABASE", .s "app_db")]),
          ("ports", .arr ["3306:3306"])]
  else if strLower service.service = "rabbitmq" then
    .obj [("image", .s "rabbitmq:3-management"), ("ports", .arr ["5672:5672", "15672:15672"])]
  else
    .obj [("image", .s "alpine:latest"), ("command", .s "sleep infinity")]

/-- Indentation of `indent` spaces. -/
def sp (indent : Nat) : String := String.mk (List.replicate indent ' ')

mutual

/-- The recursive key-value/array writer, line by line: nested mappings
indent by two more spaces, arrays render one dash-prefixed element per line,
and string scalars are double-quoted. -/
def yamlifyEntries : List (String × Yaml) → Nat → List String
  | [], _ => []
  | (key, v) :: rest, indent => yamlifyOne key v indent ++ yamlifyEntries rest indent

def yamlifyOne (key : String) (v : Yaml) (indent : Nat) : List String :=
  match v with
  | .obj entries => (sp indent ++ key ++ ":") :: yamlifyEntries entries (indent + 2)
  | .arr items =>
    (sp indent ++ key ++ ":") :: items.map (fun item => sp indent ++ "  - \"" ++ item ++ "\"")
  | .s value => [sp indent ++ key ++ ": \"" ++ value ++ "\""]

end

/-- `generateDockerCompose`: the `app` service first, then one entry per
external service flagged `requiresInfrastructure`, serialized by `yamlify`. -/
def generateDockerCompose (config : CICDConfig) : List String :=
  let port := toString config.cloud.deploymentConfig.port
  let services : List (String × Yaml) :=
    ("app", .obj [("build", .s "."),
                  ("ports", .arr [port ++ ":" ++ port]),
                  ("env_file", .arr [".env"]),
                  ("depends_on",
                   .arr ((config.project.externalServices.filter
                            (fun s => s.requiresInfrastructure)).map getServiceName))]) ::
    (config.project.externalServices.filter (fun s => s.requiresInfrastructure)).map
      (fun s => (getServiceName s, getServiceConfig s))
  yamlifyEntries [("version", Yaml.s "3.8"), ("services", Yaml.obj services)] 0

end DockerComposeService

/-! ## NotificationService (notification.service.ts) -/

namespace NotificationService

def generateEmailNotification (email : String) : List String :=
  ["",
   "    def sendEmailNotification(status, stageName=\x27\x27) \x7b",
   "        def subject = \"[$\x7bstatus\x7d] Jenkins Pipeline - $\x7benv.JOB_NAME\x7d #$\x7benv.BUILD_NUMBER\x7d\"",
   "        def body = \"\"\"",
   "        <html>",
   "        <body>",
   "            <h2>Jenkins Pipeline Notification</h2>",
   "            <p><strong>Job:</strong> $\x7benv.JOB_NAME\x7d</p>",
   "            <p><strong>Build Number:</strong> $\x7benv.BUILD_NUMBER\x7d</p>",
   "            <p><strong>Status:</strong> <span style=\"color: $\x7bstatus == \x27SUCCESS\x27 ? \x27green\x27 : \x27red\x27\x7d;\">$\x7bstatus\x7d</span></p>",
   "            $\x7bstageName ? \"<p><strong>Stage:</strong> $\x7bstageName\x7d</p>\" : \"\"\x7d",
   "            <p><strong>Duration:</strong> $\x7bcurrentBuild.durationString\x7d</p>",
   "            <p><strong>Build URL:</strong> <a href=\"$\x7benv.BUILD_URL\x7d\">$\x7benv.BUILD_URL\x7d</a></p>",
   "            <p><strong>Console Output:</strong> <a href=\"$\x7benv.BUILD_URL\x7dconsole\">$\x7benv.BUILD_URL\x7dconsole</a></p>",
   "            <hr>",
   "            <p><strong>Changes:</strong></p>",
   "            <pre>$\x7bcurrentBuild.changeSets.collect \x7b it.items.collect \x7b \"$\x7bit.author\x7d - $\x7bit.msg\x7d\" \x7d.join(\x27\\n\x27) \x7d.join(\x27\\n\x27)\x7d</pre>",
   "        </body>",
   "        </html>",
   "        \"\"\"",
   "",
   "        emailext(",
   "            subject: subject,",
   "            body: body,",
   "            to: \x27" ++ email ++ "\x27,",
   "            mimeType: \x27text/html\x27,",
   "            attachLog: status != \x27SUCCESS\x27",
   "        )",
   "    \x7d",
   "    "]

def generateSlackNotification (webhook : String) : List String :=
  ["",
   "    def sendSlackNotification(status, stageName = \x27\x27)\x7b",
   "        def color = status == \x27SUCCESS\x27 ? \x27good\x27 : \x27danger\x27",
   "        def message = [",
   "            text: \"Jenkins Pipeline $\x7bstatus\x7d\",",
   "            attachments:[[",
   "                color: color,",
   "                title: \"Jenkins Pipeline $\x7bstatus\x7d\",",
   "                title_link: \"$\x7benv.BUILD_URL\x7d\",",
   "                fields: [",
   "                    [title: \"Status\", value: status, short: true],",
   "                    [title: \"Branch\", value: \"$\x7benv.BRANCH_NAME\x7d\", short: true],",
   "                    [title: \"Duration\", value: \"$\x7bcurrentBuild.durationString\x7d\", short: true],",
   "                    $\x7bstageName ? \"[title: \x27Stage\x27, value: \x27$\x7bstageName\x7d\x27, short: true],\" : \"\"\x7d",
   "                ],",
   "                footer: \"Jenkins\",",
   "                ts: (System.currentTimeMillis() / 1000).toLong()",
   "            ]]",
   "        ]",
   "        sh \"\"\"",
   "            curl -X POST \x27" ++ webhook ++ "\x27 \\",
   "            -H \x27Content-Type: application/json\x27 \\",
   "            -d \x27$\x7bgroovy.json.JsonOutput.toJson(message)\x7d\x27",
   "        \"\"\"",
   "    \x7d",
   "    "]

def generateDiscordNotification (webhook : String) : List String :=
  ["",
   "def sendDiscordNotification(status, stageName = \x27\x27) \x7b",
   "  def color = status == \x27SUCCESS\x27 ? 3066993 : 15158332",
   "  def message = [",
   "    embeds: [[",
   "      title: \"Jenkins Pipeline $\x7bstatus\x7d\",",
   "      description: \"$\x7benv.JOB_NAME\x7d #$\x7benv.BUILD_NUMBER\x7d\",",
   "      color: color,",
   "      fields: [",
   "        [name: \"Status\", value: status, inline: true],",
   "        [name: \"Branch\", value: \"$\x7benv.BRANCH_NAME\x7d\", inline: true],",
   "        [name: \"Duration\", value: \"$\x7bcurrentBuild.durationString\x7d\", inline: true],",
   "        $\x7bstageName ? \"[name: \x27Stage\x27, value: \x27$\x7bstageName\x7d\x27, inline: true],\" : \"\"\x7d",
   "      ],",
   "      footer: [text: \"Jenkins\"],",
   "      timestamp: new Date().format(\"yyyy-MM-dd\x27T\x27HH:mm:ss\x27Z\x27\"),",
   "      url: \"$\x7benv.BUILD_URL\x7d\"",
   "    ]]",
   "  ]",
   "  ",
   "  sh \"\"\"",
   "    curl -X POST \x27" ++ webhook ++ "\x27 \\",
   "    -H \x27Content-Type: application/json\x27 \\",
   "    -d \x27$\x7bgroovy.json.JsonOutput.toJson(message)\x7d\x27",
   "  \"\"\"",
   "\x7d",
   ""]

def generateTeamsNotification (webhook : String) : List String :=
  ["",
   "def sendTeamsNotification(status, stageName = \x27\x27) \x7b",
   "  def color = status == \x27SUCCESS\x27 ? \x2700FF00\x27 : \x27FF0000\x27",
   "  def message = [",
   "    \"@type\": \"MessageCard\",",
   "    \"@context\": \"http://schema.org/extensions\",",
   "    themeColor: color,",
   "    summary: \"Jenkins Pipeline $\x7bstatus\x7d\",",
   "    sections: [[",
   "      activityTitle: \"Jenkins Pipeline $\x7bstatus\x7d\",",
   "      activitySubtitle: \"$\x7benv.JOB_NAME\x7d #$\x7benv.BUILD_NUMBER\x7d\",",
   "      facts: [",
   "        [name: \"Status\", value: status],",
   "        [name: \"Branch\", value: \"$\x7benv.BRANCH_NAME\x7d\"],",
   "        [name: \"Duration\", value: \"$\x7bcurrentBuild.durationString\x7d\"],",
   "        $\x7bstageName ? \"[name: \x27Stage\x27, value: \x27$\x7bstageName\x7d\x27],\" : \"\"\x7d",
   "      ],",
   "      markdown: true",
   "    ]],",
   "    potentialAction: [[",
   "      \"@type\": \"OpenUri\",",
   "      name: \"View Build\",",
   "      targets: [[",
   "        os: \"default\",",
   "        uri: \"$\x7benv.BUILD_URL\x7d\"",
   "      ]]",
   "    ]]",
   "  ]",
   "  ",
   "  sh \"\"\"",
   "    curl -X POST \x27" ++ webhook ++ "\x27 \\",
   "    -H \x27Content-Type: application/json\x27 \\",
   "    -d \x27$\x7bgroovy.json.JsonOutput.toJson(message)\x7d\x27",
   "  \"\"\"",
   "\x7d",
   ""]

/-- `webhook.split('/')`. -/
def tgParts (webhook : String) : List String := jsSplit webhook '/'

/-- `parts[parts.length - 2]`: the penultimate `/`-separated component; a
JavaScript out-of-bounds read gives `undefined`, rendered as `"undefined"`
by string interpolation. -/
def tgBotToken (webhook : String) : String :=
  let parts := tgParts webhook
  if parts.length ≥ 2 then parts.getD (parts.length - 2) "undefined" else "undefined"

/-- `parts[parts.length - 1]`: the final `/`-separated component. -/
def tgChatId (webhook : String) : String :=
  let parts := tgParts webhook
  parts.getD (parts.length - 1) "undefined"

/-- The curl target line of the generated telegram routine for a given bot
token. -/
def tgCurlLine (botToken : String) : String :=
  "    curl -X POST \x27https://api.telegram.org/bot" ++ botToken ++ "/sendMessage\x27 \\"

def generateTelegramNotification (webhook : String) : List String :=
  let botToken := tgBotToken webhook
  let chatId := tgChatId webhook
  ["",
   "def sendTelegramNotification(status, stageName = \x27\x27) \x7b",
   "  def emoji = status == \x27SUCCESS\x27 ? \x27✅\x27 : \x27❌\x27",
   "  def message = \"\"\"",
   "$\x7bemoji\x7d *Jenkins Pipeline $\x7bstatus\x7d*",
   "",
   "*Job:* $\x7benv.JOB_NAME\x7d",
   "*Build:* #$\x7benv.BUILD_NUMBER\x7d",
   "*Status:* $\x7bstatus\x7d",
   "*Branch:* $\x7benv.BRANCH_NAME\x7d",
   "$\x7bstageName ? \"*Stage:* $\x7bstageName\x7d\" : \"\"\x7d",
   "*Duration:* $\x7bcurrentBuild.durationString\x7d",
   "",
   "[View Build]($\x7benv.BUILD_URL\x7d)",
   "  \"\"\"",
   "  ",
   "  sh \"\"\"",
   tgCurlLine botToken,
   "    -H \x27Content-Type: application/json\x27 \\",
   "    -d \x27\x7b",
   "      \"chat_id\": \"" ++ chatId ++ "\",",
   "      \"text\": \"$\x7bmessage.replaceAll(\x27\"\x27, \x27\\\\\"\x27)\x7d\",",
   "      \"parse_mode\": \"Markdown\",",
   "      \"disable_web_page_preview\": true",
   "    \x7d\x27",
   "  \"\"\"",
   "\x7d",
   ""]

/-- One platform of the `for (const platform of config.platforms)` loop:
platforms with a falsy webhook are skipped, the rest dispatch on the channel
tag. -/
def genPlatformBlock (p : NotificationPlatform) : List String :=
  if truthyOptStr p.webhook then
    let w := p.webhook.getD ""
    if p.type = "slack" then generateSlackNotification w
    else if p.type = "discord" then generateDiscordNotification w
    else if p.type = "teams" then generateTeamsNotification w
    else if p.type = "telegram" then generateTelegramNotification w
    else []
  else []

def generateNotificationScript (config : NotificationConfig) : List String :=
  generateEmailNotification config.email ++
    (config.platforms.map genPlatformBlock).flatten

/-- One outcome block of the `post { ... }` lifecycle wrapper. -/
def postOutcomeBlock (outcome status : String) : List String :=
  ["      " ++ outcome ++ " \x7b",
   "        script \x7b",
   "            sendEmailNotification(\x27" ++ status ++ "\x27)",
   "            try \x7bsendSlackNotification(\x27" ++ status ++ "\x27)\x7d catch(e)\x7b\x7d",
   "            try \x7bsendDiscordNotification(\x27" ++ status ++ "\x27)\x7d catch(e)\x7b\x7d",
   "            try \x7bsendTeamsNotification(\x27" ++ status ++ "\x27)\x7d catch(e)\x7b\x7d",
   "            try \x7bsendTelegramNotification(\x27" ++ status ++ "\x27)\x7d catch(e)\x7b\x7d",
   "        \x7d",
   "      \x7d"]

def generatePostStageNotifications : List String :=
  ["", "    post \x7b"] ++
  postOutcomeBlock "success" "SUCCESS" ++
  postOutcomeBlock "failure" "FAILURE" ++
  postOutcomeBlock "unstable" "UNSTABLE" ++
  ["    \x7d"]

/-- The ordered call structure of one `script { ... }` block of the wrapper:
routine name paired with whether the call is wrapped in `try { ... } catch(e) {}`.
This is the structure of the five call lines of `postOutcomeBlock`. -/
def postStageCalls : List (String × Bool) :=
  [("sendEmailNotification", false),
   ("sendSlackNotification", true),
   ("sendDiscordNotification", true),
   ("sendTeamsNotification", true),
   ("sendTelegramNotification", true)]

/-- Sequential Groovy execution of a call list: every call is attempted in
order; a failing call that is not wrapped aborts the block, a failing wrapped
call is swallowed by its `catch(e) {}`.  Returns the names of the routines
that are invoked. -/
def runCalls : List (String × Bool) → (String → Bool) → List String
  | [], _ => []
  | (name, wrapped) :: rest, fails =>
    if fails name && !wrapped then [name]
    else name :: runCalls rest fails

end NotificationService

/-! ## Claim-level definitions -/

/-- The distinguishing static-credential line of each provider's
authentication block. -/
def staticAuthMarker (provider : String) : String :=
  if provider = "aws" then "    aws configure set aws_access_key_id $\x7bAWS_ACCESS_KEY_ID\x7d"
  else if provider = "azure" then "        -p $\x7bAZURE_CLIENT_SECRET\x7d \\"
  else if provider = "gcp" then
    "    gcloud auth activate-service-account --key-file=$\x7bGCP_KEY_FILE\x7d"
  else if provider = "digitalocean" then "    doctl auth init --access-token $\x7bDO_API_TOKEN\x7d"
  else ""

/-- The line shared by every provider's OIDC authentication block (and by no
static block). -/
def oidcAuthMarker : String := "    echo \"Authenticating via OIDC...\""

/-- Whether the generators select the OIDC authentication branch: Azure and
GCP branch on `useOIDC` alone, AWS additionally requires a truthy
`oidcRoleArn`, and the DigitalOcean generator has no OIDC branch at all. -/
def oidcSelected (config : CloudConfig) : Bool :=
  if config.provider = "aws" then
    config.credentials.useOIDC && truthyOptStr config.credentials.oidcRoleArn
  else if config.provider = "azure" ∨ config.provider = "gcp" then
    config.credentials.useOIDC
  else false

/-- The `image:` value of a compose service definition. -/
def yamlImage : Yaml → Option String
  | .obj entries =>
    (entries.lookup "image").bind fun v =>
      match v with
      | .s i => some i
      | _ => none
  | _ => none

/-! Sample configurations used by witnesses and counterexamples. -/

def sampleDC : DeploymentConfig :=
  { tier := "standard", autoScaling := true, minInstances := some 1, maxInstances := some 1,
    healthCheckPath := "/health", port := 3000, useLoadBalancer := false,
    loadBalancerUrl := none, deploymentStrategy := "rolling", environmentVariables := [] }

def sampleAwsConfig : CloudConfig :=
  { provider := "aws",
    credentials := .aws ⟨some "AKIA123", some "secret123", "us-east-1", false, none⟩,
    region := "us-east-1", instanceType := "t2.micro",
    deploymentConfig := sampleDC, managedServices := [] }

def herokuConfig : CloudConfig := { sampleAwsConfig with provider := "heroku" }

/-! ## C10 — generator determinism -/

/-- C10: every generator is deterministic; in this embedding each generator
is a pure function of the configuration argument alone (the original code
reads no clock, no randomness and no mutable state in these four
generators), so two runs on the same value are byte-identical. -/
theorem claim10_generators_deterministic :
    (∀ (c : CloudConfig) (n : String),
        CloudProviderService.generateDeploymentScript c n =
          CloudProviderService.generateDeploymentScript c n) ∧
    (∀ (c : CloudConfig) (n : String),
        IaCService.generateTerraformConfig c n = IaCService.generateTerraformConfig c n) ∧
    (∀ c : CICDConfig,
        DockerComposeService.generateDockerCompose c =
          DockerComposeService.generateDockerCompose c) ∧
    (∀ c : NotificationConfig,
        NotificationService.generateNotificationScript c =
          NotificationService.generateNotificationScript c) :=
  ⟨fun _ _ => rfl, fun _ _ => rfl, fun _ => rfl, fun _ => rfl⟩

/-! ## C9 — compose service lookup -/

/-- C9 (amended): the compose lookup table is keyed on the lower-cased
product identifier: a service whose identifier lower-cases to `postgresql`
gets an image starting with `postgres`, and an identifier whose lower-casing
is outside the table falls back to the inert alpine placeholder. -/
theorem claim9_compose_lookup (s : ExternalService) :
    (strLower s.service = "postgresql" →
      ∃ img, yamlImage (DockerComposeService.getServiceConfig s) = some img ∧
        chPre "postgres".data img.data = true) ∧
    (strLower s.service ∉
        ["postgresql", "mongodb", "redis", "mysql", "mariadb", "rabbitmq"] →
      DockerComposeService.getServiceConfig s =
        .obj [("image", .s "alpine:latest"), ("command", .s "sleep infinity")]) := by
  constructor
  · intro h
    refine ⟨"postgres:latest", ?_, by decide⟩
    simp [DockerComposeService.getServiceConfig, h, yamlImage, List.lookup]
  · intro h
    have h1 : strLower s.service ≠ "postgresql" := fun he => h (by simp [he])
    have h2 : strLower s.service ≠ "mongodb" := fun he => h (by simp [he])
    have h3 : strLower s.service ≠ "redis" := fun he => h (by simp [he])
    have h4 : strLower s.service ≠ "mysql" := fun he => h (by simp [he])
    have h5 : strLower s.service ≠ "mariadb" := fun he => h (by simp [he])
    have h6 : strLower s.service ≠ "rabbitmq" := fun he => h (by simp [he])
    simp [DockerComposeService.getServiceConfig, h1, h2, h3, h4, h5, h6]

def svcPostgres : ExternalService :=
  { type := "database", name := "Main DB", service := "postgresql",
    envVariables := [], connectionString := none, requiresInfrastructure := true }

def svcUnknown : ExternalService :=
  { type := "custom", name := "Weird", service := "unknown-thing",
    envVariables := [], connectionString := none, requiresInfrastructure := true }

theorem claim9_witness :
    (∃ img, yamlImage (DockerComposeService.getServiceConfig svcPostgres) = some img ∧
      chPre "postgres".data img.data = true) ∧
    DockerComposeService.getServiceConfig svcUnknown =
      .obj [("image", .s "alpine:latest"), ("command", .s "sleep infinity")] :=
  ⟨(claim9_compose_lookup svcPostgres).1 (by decide),
   (claim9_compose_lookup svcUnknown).2 (by decide)⟩

def svcUpperPG : ExternalService :=
  { type := "database", name := "Main DB", service := "POSTGRESQL",
    envVariables := [], connectionString := none, requiresInfrastructure := true }

/-- C9 counterexample: `"POSTGRESQL"` is outside the listed lookup table, yet
the emitted entry is the postgres image, not the alpine placeholder — the
table is keyed on the lower-cased identifier. -/
theorem claim9_counterexample :
    ("POSTGRESQL" ∉ ["postgresql", "mongodb", "redis", "mysql", "mariadb", "rabbitmq"]) ∧
    svcUpperPG.service = "POSTGRESQL" ∧
    yamlImage (DockerComposeService.getServiceConfig svcUpperPG) = some "postgres:latest" ∧
    yamlImage (DockerComposeService.getServiceConfig svcUpperPG) ≠ some "alpine:latest" := by
  decide

/-! ## C3 — unsupported provider dispatch -/

/-- C3 (amended): on a provider tag outside the four supported ones the
deployment-script generator throws `Unsupported cloud provider: ...`, but the
infrastructure-manifest generator silently returns the empty artifact instead
of failing. -/
theorem claim3_unsupported_provider (cfg : CloudConfig) (n : String)
    (h1 : cfg.provider ≠ "aws") (h2 : cfg.provider ≠ "azure")
    (h3 : cfg.provider ≠ "gcp") (h4 : cfg.provider ≠ "digitalocean") :
    CloudProviderService.generateDeploymentScript cfg n =
      .error ("Unsupported cloud provider: " ++ cfg.provider) ∧
    IaCService.generateTerraformConfig cfg n = [] := by
  constructor
  · simp [CloudProviderService.generateDeploymentScript, h1, h2, h3, h4]
  · simp [IaCService.generateTerraformConfig, h1, h2, h3, h4]

theorem claim3_witness :
    CloudProviderService.generateDeploymentScript herokuConfig "app" =
      .error ("Unsupported cloud provider: " ++ herokuConfig.provider) ∧
    IaCService.generateTerraformConfig herokuConfig "app" = [] :=
  claim3_unsupported_provider herokuConfig "app" (by decide) (by decide) (by decide) (by decide)

/-- C3 counterexample: at provider `heroku`, `generateTerraformConfig`
returns the empty artifact rather than failing — a silently returned empty
output, contrary to the claim that both generators fail fatally. -/
theorem claim3_counterexample :
    IaCService.generateTerraformConfig herokuConfig "app" = [] ∧
    CloudProviderService.generateDeploymentScript herokuConfig "app" =
      .error ("Unsupported cloud provider: heroku") := by
  constructor
  · rfl
  · have h : ("Unsupported cloud provider: " ++ "heroku" : String) =
        "Unsupported cloud provider: heroku" := by decide
    calc CloudProviderService.generateDeploymentScript herokuConfig "app"
        = .error ("Unsupported cloud provider: " ++ "heroku") := rfl
      _ = .error "Unsupported cloud provider: heroku" := by rw [h]

/-! ## C8 — lifecycle wrapper failure isolation -/

/-- C8 (amended): in the emitted lifecycle wrapper the four channel calls are
each wrapped in `try { ... } catch(e) {}`, so as long as the email routine
does not fail, every routine runs whatever channels fail; the email call
itself, however, is not wrapped and precedes the channel calls, so all five
routines start only in that case, and email is always invoked first. -/
theorem claim8_failure_isolation :
    (∀ fails : String → Bool, fails "sendEmailNotification" = false →
      NotificationService.runCalls NotificationService.postStageCalls fails =
        ["sendEmailNotification", "sendSlackNotification", "sendDiscordNotification",
         "sendTeamsNotification", "sendTelegramNotification"]) ∧
    (∀ fails : String → Bool,
      "sendEmailNotification" ∈
        NotificationService.runCalls NotificationService.postStageCalls fails) ∧
    ("            sendEmailNotification(\x27SUCCESS\x27)" ∈
      NotificationService.generatePostStageNotifications) ∧
    ("            try \x7bsendSlackNotification(\x27SUCCESS\x27)\x7d catch(e)\x7b\x7d" ∈
      NotificationService.generatePostStageNotifications) ∧
    ("            sendEmailNotification(\x27FAILURE\x27)" ∈
      NotificationService.generatePostStageNotifications) ∧
    ("            try \x7bsendTelegramNotification(\x27UNSTABLE\x27)\x7d catch(e)\x7b\x7d" ∈
      NotificationService.generatePostStageNotifications) := by
  refine ⟨?_, ?_, by decide, by decide, by decide, by decide⟩
  · intro fails h
    simp [NotificationService.runCalls, NotificationService.postStageCalls, h]
  · intro fails
    by_cases h : fails "sendEmailNotification" <;>
      simp [NotificationService.runCalls, NotificationService.postStageCalls, h]

theorem claim8_witness :
    NotificationService.runCalls NotificationService.postStageCalls
        (fun nm => nm == "sendSlackNotification") =
      ["sendEmailNotification", "sendSlackNotification", "sendDiscordNotification",
       "sendTeamsNotification", "sendTelegramNotification"] :=
  claim8_failure_isolation.1 (fun nm => nm == "sendSlackNotification") (by decide)

/-- C8 counterexample: a failure of the (unwrapped, first) email routine
prevents every channel routine from running — the email call is not under
independent failure isolation. -/
theorem claim8_counterexample :
    NotificationService.runCalls NotificationService.postStageCalls
        (fun nm => nm == "sendEmailNotification") = ["sendEmailNotification"] ∧
    "sendSlackNotification" ∉
      NotificationService.runCalls NotificationService.postStageCalls
        (fun nm => nm == "sendEmailNotification") := by
  decide

/-! ## C7 — telegram webhook extraction -/

theorem strCancelBoth (pre a b suf : String)
    (h : pre ++ (a ++ suf) = pre ++ (b ++ suf)) : a = b := by
  have hd := congrArg String.data h
  simp only [String.data_append] at hd
  exact strData_inj (List.append_cancel_right (List.append_cancel_left hd))

/-- A string extending a head longer than `t` is distinct from `t`. -/
theorem strNeShort (p x t : String) (h : t.data.length < p.data.length) : p ++ x ≠ t := by
  intro he
  have hd := congrArg (fun s => s.data.length) he
  simp only [String.data_append, List.length_append] at hd
  omega

/-- C7 (amended): the generated telegram routine always targets the bot-API
URL built from the penultimate `/`-separated component of the webhook, taken
whole (`parts[parts.length - 2]`, including any `bot` prefix the component
carries), and the final component as chat id; the generator never fails —
out-of-range components render as `undefined`.  The curl target line occurs
in the routine for exactly that token. -/
theorem claim7_telegram_extraction (w : String) :
    NotificationService.tgCurlLine (NotificationService.tgBotToken w) ∈
      NotificationService.generateTelegramNotification w ∧
    ("      \"chat_id\": \"" ++ NotificationService.tgChatId w ++ "\",") ∈
      NotificationService.generateTelegramNotification w ∧
    (∀ t, NotificationService.tgCurlLine t ∈
        NotificationService.generateTelegramNotification w →
      t = NotificationService.tgBotToken w) := by
  refine ⟨by simp [NotificationService.generateTelegramNotification], by
    simp [NotificationService.generateTelegramNotification], ?_⟩
  intro t ht
  simp only [NotificationService.generateTelegramNotification,
    List.mem_cons, List.not_mem_nil, or_false] at ht
  simp only [NotificationService.tgCurlLine, strAssoc] at ht ⊢
  rcases ht with ht | ht | ht | ht | ht | ht | ht | ht | ht | ht | ht | ht | ht | ht | ht |
    ht | ht | ht | ht | ht | ht | ht | ht | ht | ht | ht | ht | ht
  all_goals first
    | exact absurd ht (strNeL _ _ _ (by decide))
    | exact absurd ht (strNe _ _ _ _ (by decide))
    | exact absurd ht (strNeShort _ _ _ (by decide))
    | exact strCancelBoth _ _ _ _ ht

theorem claim7_witness :
    NotificationService.tgCurlLine
        (NotificationService.tgBotToken "https://host/bot123:ABC/9876") ∈
      NotificationService.generateTelegramNotification "https://host/bot123:ABC/9876" ∧
    "bot123:ABC" = NotificationService.tgBotToken "https://host/bot123:ABC/9876" :=
  ⟨(claim7_telegram_extraction "https://host/bot123:ABC/9876").1,
   (claim7_telegram_extraction "https://host/bot123:ABC/9876").2.2 "bot123:ABC" (by decide)⟩

/-- C7 counterexample: for webhook `https://host/bot123:ABC/9876` the
generated call targets bot token `bot123:ABC` (the whole penultimate path
component), not `123:ABC`; and for the single-path-segment webhook
`https://host/9876` generation does not fail — it emits a routine targeting
the host name as the bot token. -/
theorem claim7_counterexample :
    NotificationService.tgCurlLine "123:ABC" ∉
      NotificationService.generateTelegramNotification "https://host/bot123:ABC/9876" ∧
    NotificationService.tgCurlLine "bot123:ABC" ∈
      NotificationService.generateTelegramNotification "https://host/bot123:ABC/9876" ∧
    NotificationService.tgCurlLine "host" ∈
      NotificationService.generateTelegramNotification "https://host/9876" := by
  decide

/-! ## C6 — DEPLOYED_URL resolution and persistence -/

/-- The `KEY=value` line appended to the deployment-state file. -/
def deployEnvLine : String := "    echo \"DEPLOYED_URL=$DEPLOYED_URL\" >> deployment.env"

/-- C6: when `useLoadBalancer` is set and a load-balancer URL is configured,
the URL-resolution block assigns the literal configured URL and contains
none of the provider-specific runtime lookup (its output does not depend on
`defaultUrlScript` at all); when `useLoadBalancer` is false it splices the
provider-specific lookup; and in every case — and in every provider's full
deployment script — the resolved value is appended to the deployment-state
file as a `DEPLOYED_URL=...` line. -/
theorem claim6_url_resolution (dc : DeploymentConfig) (d : List String)
    (cfg : CloudConfig) (n : String) :
    (dc.useLoadBalancer = true → truthyOptStr dc.loadBalancerUrl = true →
      CloudProviderService.generateDeployedUrlExport dc d =
        ["    export DEPLOYED_URL=\"" ++ dc.loadBalancerUrl.getD "" ++ "\"",
         deployEnvLine,
         "    echo \"Deployment completed. Reachable at Load Balancer: $DEPLOYED_URL\""]) ∧
    (dc.useLoadBalancer = false →
      CloudProviderService.generateDeployedUrlExport dc d =
        d ++ [deployEnvLine,
              "    echo \"Deployment completed. Reachable at: $DEPLOYED_URL\""]) ∧
    deployEnvLine ∈ CloudProviderService.generateDeployedUrlExport dc d ∧
    deployEnvLine ∈ CloudProviderService.generateAWSDeploymentScript cfg n ∧
    deployEnvLine ∈ CloudProviderService.generateAzureDeploymentScript cfg n ∧
    deployEnvLine ∈ CloudProviderService.generateGCPDeploymentScript cfg n ∧
    deployEnvLine ∈ CloudProviderService.generateDigitalOceanDeploymentScript cfg n := by
  refine ⟨?_, ?_, ?_, ?_, ?_, ?_, ?_⟩
  · intro h1 h2
    simp [CloudProviderService.generateDeployedUrlExport, h1, h2, deployEnvLine]
  · intro h
    simp [CloudProviderService.generateDeployedUrlExport, h, deployEnvLine]
  · by_cases hc : (dc.useLoadBalancer && truthyOptStr dc.loadBalancerUrl) = true <;>
      simp [CloudProviderService.generateDeployedUrlExport, hc, deployEnvLine]
  · by_cases hc : (cfg.deploymentConfig.useLoadBalancer &&
        truthyOptStr cfg.deploymentConfig.loadBalancerUrl) = true <;>
      simp [CloudProviderService.generateAWSDeploymentScript,
            CloudProviderService.awsServiceUpdateBlock,
        CloudProviderService.generateDeployedUrlExport, hc, deployEnvLine]
  · by_cases hc : (cfg.deploymentConfig.useLoadBalancer &&
        truthyOptStr cfg.deploymentConfig.loadBalancerUrl) = true <;>
      simp [CloudProviderService.generateAzureDeploymentScript,
        CloudProviderService.generateDeployedUrlExport, hc, deployEnvLine]
  · by_cases hc : (cfg.deploymentConfig.useLoadBalancer &&
        truthyOptStr cfg.deploymentConfig.loadBalancerUrl) = true <;>
      simp [CloudProviderService.generateGCPDeploymentScript,
        CloudProviderService.generateDeployedUrlExport, hc, deployEnvLine]
  · by_cases hc : (cfg.deploymentConfig.useLoadBalancer &&
        truthyOptStr cfg.deploymentConfig.loadBalancerUrl) = true <;>
      simp [CloudProviderService.generateDigitalOceanDeploymentScript,
        CloudProviderService.generateDeployedUrlExport, hc, deployEnvLine]

def dcWithLB : DeploymentConfig :=
  { sampleDC with useLoadBalancer := true, loadBalancerUrl := some "https://api.example.com" }

theorem claim6_witness :
    (CloudProviderService.generateDeployedUrlExport dcWithLB
        ["    export DEPLOYED_URL=$(cat gcp_url.txt)"] =
      ["    export DEPLOYED_URL=\"" ++ dcWithLB.loadBalancerUrl.getD "" ++ "\"",
       deployEnvLine,
       "    echo \"Deployment completed. Reachable at Load Balancer: $DEPLOYED_URL\""]) ∧
    (CloudProviderService.generateDeployedUrlExport sampleDC
        ["    export DEPLOYED_URL=$(cat gcp_url.txt)"] =
      ["    export DEPLOYED_URL=$(cat gcp_url.txt)"] ++
        [deployEnvLine,
         "    echo \"Deployment completed. Reachable at: $DEPLOYED_URL\""]) :=
  ⟨(claim6_url_resolution dcWithLB ["    export DEPLOYED_URL=$(cat gcp_url.txt)"]
      sampleAwsConfig "app").1 (by decide) (by decide),
   (claim6_url_resolution sampleDC ["    export DEPLOYED_URL=$(cat gcp_url.txt)"]
      sampleAwsConfig "app").2.1 (by decide)⟩

/-! ## C5 — instance-count rendering -/

/-- C5 (amended): no generator consults `autoScaling`; each renders the
configured `minInstances`/`maxInstances` through JavaScript `|| d`
defaulting, with default 1 for the AWS desired count, the DigitalOcean
instance counts, and the GCP maximum, but default 0 for the GCP minimum.
When the wizard-enforced fixed-capacity values `minInstances = maxInstances
= 1` are present, every rendered count is the literal `1`. -/
theorem claim5_fixed_capacity (cfg : CloudConfig) (n : String)
    (hmin : cfg.deploymentConfig.minInstances = some 1)
    (hmax : cfg.deploymentConfig.maxInstances = some 1) :
    "            --desired-count 1 \\" ∈
      CloudProviderService.generateAWSDeploymentScript cfg n ∧
    "        --min-instances 1 \\" ∈ CloudProviderService.generateGCPDeploymentScript cfg n ∧
    "        --max-instances 1 \\" ∈ CloudProviderService.generateGCPDeploymentScript cfg n ∧
    "          instance_count: 1" ∈
      CloudProviderService.generateDigitalOceanDeploymentScript cfg n ∧
    "      instance_count     = 1" ∈ IaCService.generateDOTerraform cfg n := by
  have e1 : jsOrNat cfg.deploymentConfig.minInstances 1 = 1 := by rw [hmin]; rfl
  have e0 : jsOrNat cfg.deploymentConfig.minInstances 0 = 1 := by rw [hmin]; rfl
  have e2 : jsOrNat cfg.deploymentConfig.maxInstances 1 = 1 := by rw [hmax]; rfl
  have f1 : ("            --desired-count " ++ toString 1 ++ " \\") =
      "            --desired-count 1 \\" := by decide
  have f2 : ("        --min-instances " ++ toString 1 ++ " \\") =
      "        --min-instances 1 \\" := by decide
  have f3 : ("        --max-instances " ++ toString 1 ++ " \\") =
      "        --max-instances 1 \\" := by decide
  have f4 : ("          instance_count: " ++ toString 1) = "          instance_count: 1" := by
    decide
  have f5 : ("      instance_count     = " ++ toString 1) =
      "      instance_count     = 1" := by decide
  refine ⟨?_, ?_, ?_, ?_, ?_⟩
  · simp [CloudProviderService.generateAWSDeploymentScript,
            CloudProviderService.awsServiceUpdateBlock, e1, f1]
  · simp [CloudProviderService.generateGCPDeploymentScript, e0, f2]
  · simp [CloudProviderService.generateGCPDeploymentScript, e2, f3]
  · simp [CloudProviderService.generateDigitalOceanDeploymentScript, e1, f4]
  · simp [IaCService.generateDOTerraform, e1, f5]

theorem claim5_witness :
    "            --desired-count 1 \\" ∈
      CloudProviderService.generateAWSDeploymentScript sampleAwsConfig "app" ∧
    "        --min-instances 1 \\" ∈
      CloudProviderService.generateGCPDeploymentScript sampleAwsConfig "app" ∧
    "        --max-instances 1 \\" ∈
      CloudProviderService.generateGCPDeploymentScript sampleAwsConfig "app" ∧
    "          instance_count: 1" ∈
      CloudProviderService.generateDigitalOceanDeploymentScript sampleAwsConfig "app" ∧
    "      instance_count     = 1" ∈ IaCService.generateDOTerraform sampleAwsConfig "app" :=
  claim5_fixed_capacity sampleAwsConfig "app" rfl rfl

def gcpNoScaleConfig : CloudConfig :=
  { provider := "gcp",
    credentials := .gcp ⟨"my-project", some "./gcp-key.json", "us-central1", false⟩,
    region := "us-central1", instanceType := "e2-micro",
    deploymentConfig :=
      { tier := "standard", autoScaling := false, minInstances := none, maxInstances := none,
        healthCheckPath := "/health", port := 3000, useLoadBalancer := false,
        loadBalancerUrl := none, deploymentStrategy := "rolling",
        environmentVariables := [] },
    managedServices := [] }

/-- C5 counterexample: with `autoScaling = false` and `minInstances` absent,
the GCP deployment script renders `--min-instances 0`, not 1 — the claim
that both bounds render as 1 regardless of other inputs fails. -/
theorem claim5_counterexample :
    gcpNoScaleConfig.deploymentConfig.autoScaling = false ∧
    gcpNoScaleConfig.deploymentConfig.minInstances = none ∧
    "        --min-instances 0 \\" ∈
      CloudProviderService.generateGCPDeploymentScript gcpNoScaleConfig "app" ∧
    "        --min-instances 1 \\" ∉
      CloudProviderService.generateGCPDeploymentScript gcpNoScaleConfig "app" := by
  decide

/-! ## C4 — cross-artifact value consistency -/

/-- C4 (amended): wherever the configured port, health-check path and
artifact name occur in the deployment scripts, the infrastructure manifests
and the compose manifest, each generator renders exactly the configured
value, identically across artifacts (the port as `toString port`, the path
and name verbatim).  Not every value occurs in every artifact: the AWS
infrastructure manifest renders neither port nor health-check path, and the
compose manifest never renders the artifact name (its application service is
keyed `app`). -/
theorem claim4_value_consistency (cc : CICDConfig) (n : String) :
    let p := toString cc.cloud.deploymentConfig.port
    let hcp := cc.cloud.deploymentConfig.healthCheckPath
    ("                    \"containerPort\": " ++ p ++ ",") ∈
      CloudProviderService.generateAWSDeploymentScript cc.cloud n ∧
    ("            \"command\": [\"CMD-SHELL\", \"curl -f http://localhost:" ++ p ++ hcp ++
        " || exit 1\"],") ∈ CloudProviderService.generateAWSDeploymentScript cc.cloud n ∧
    ("        \"family\": \"" ++ n ++ "\",") ∈
      CloudProviderService.generateAWSDeploymentScript cc.cloud n ∧
    ("        --ports " ++ p ++ " \\") ∈
      CloudProviderService.generateAzureDeploymentScript cc.cloud n ∧
    ("        --port " ++ p ++ " \\") ∈
      CloudProviderService.generateGCPDeploymentScript cc.cloud n ∧
    ("          http_port: " ++ p) ∈
      CloudProviderService.generateDigitalOceanDeploymentScript cc.cloud n ∧
    ("            http_path: " ++ hcp) ∈
      CloudProviderService.generateDigitalOceanDeploymentScript cc.cloud n ∧
    ("  name = \"" ++ n ++ "-cluster\"") ∈ IaCService.generateAWSTerraform cc.cloud n ∧
    ("      port     = " ++ p) ∈ IaCService.generateAzureTerraform cc.cloud n ∧
    ("          container_port = " ++ p) ∈ IaCService.generateGCPTerraform cc.cloud n ∧
    ("      http_port = " ++ p) ∈ IaCService.generateDOTerraform cc.cloud n ∧
    ("        http_path = \"" ++ hcp ++ "\"") ∈ IaCService.generateDOTerraform cc.cloud n ∧
    ("      name               = \"" ++ n ++ "\"") ∈ IaCService.generateDOTerraform cc.cloud n ∧
    ("      - \"" ++ (p ++ ":" ++ p) ++ "\"") ∈
      DockerComposeService.generateDockerCompose cc := by
  intro p hcp
  have hsp : (DockerComposeService.sp 4 ++ "  - \"") = "      - \"" := by decide
  refine ⟨?_, ?_, ?_, ?_, ?_, ?_, ?_, ?_, ?_, ?_, ?_, ?_, ?_, ?_⟩
  · simp [CloudProviderService.generateAWSDeploymentScript,
      CloudProviderService.awsServiceUpdateBlock]
  · simp [CloudProviderService.generateAWSDeploymentScript,
      CloudProviderService.awsServiceUpdateBlock]
  · simp [CloudProviderService.generateAWSDeploymentScript,
      CloudProviderService.awsServiceUpdateBlock]
  · simp [CloudProviderService.generateAzureDeploymentScript]
  · simp [CloudProviderService.generateGCPDeploymentScript]
  · simp [CloudProviderService.generateDigitalOceanDeploymentScript]
  · simp [CloudProviderService.generateDigitalOceanDeploymentScript]
  · simp [IaCService.generateAWSTerraform]
  · simp [IaCService.generateAzureTerraform]
  · simp [IaCService.generateGCPTerraform]
  · simp [IaCService.generateDOTerraform]
  · simp [IaCService.generateDOTerraform]
  · simp [IaCService.generateDOTerraform]
  · simp [DockerComposeService.generateDockerCompose, DockerComposeService.yamlifyEntries,
      DockerComposeService.yamlifyOne, hsp]

def cexProject : ProjectConfig :=
  { projectName := "myservice77", projectType := "backend", language := "typescript",
    repository := "https://github.com/user/repo", branch := "main", hasDockerfile := true,
    dockerfilePath := some "./Dockerfile", runTests := true, testCommand := some "npm test",
    buildCommand := some "npm run build", requiresEnvFile := false, envFilePath := none,
    externalServices := [] }

def cexCICD : CICDConfig :=
  { project := cexProject, cloud := sampleAwsConfig,
    notifications := { email := "ops@example.com", platforms := [], webhookUrls := none },
    jenkinsConfig :=
      { agentLabel := "any", timeout := 30, retryCount := 1, environmentVariables := [] } }

/-- C4 counterexample: for the same AWS configuration (port 3000, health
path `/health`, artifact name `myservice77`) the deployment script renders
port, path and name, but the AWS infrastructure manifest contains neither
the port nor the health-check path anywhere, and the compose manifest never
contains the artifact name — so a value used by one generator does not
appear in the others. -/
theorem claim4_counterexample :
    (CloudProviderService.generateAWSDeploymentScript sampleAwsConfig "myservice77").any
        (fun l => strContainsSub l "3000") = true ∧
    (IaCService.generateAWSTerraform sampleAwsConfig "myservice77").any
        (fun l => strContainsSub l "3000") = false ∧
    (CloudProviderService.generateAWSDeploymentScript sampleAwsConfig "myservice77").any
        (fun l => strContainsSub l "/health") = true ∧
    (IaCService.generateAWSTerraform sampleAwsConfig "myservice77").any
        (fun l => strContainsSub l "/health") = false ∧
    (CloudProviderService.generateAWSDeploymentScript sampleAwsConfig "myservice77").any
        (fun l => strContainsSub l "myservice77") = true ∧
    (DockerComposeService.generateDockerCompose cexCICD).any
        (fun l => strContainsSub l "myservice77") = false := by
  decide

/-! ## C1 — authentication block exclusivity -/

/-- C1 (amended): for every supported provider the deployment script
contains exactly one of the two authentication block kinds — the
static-credential lines or the OIDC lines — never both and never neither.
The OIDC branch is selected by `useOIDC` for Azure and GCP; for AWS it is
selected only when `useOIDC` holds *and* `oidcRoleArn` is truthy (with
`useOIDC` set but no role ARN, the static block is still emitted); the
DigitalOcean script has no OIDC branch and always authenticates statically. -/
theorem claim1_auth_exclusive (cfg : CloudConfig) (n : String)
    (h : cfg.provider = "aws" ∨ cfg.provider = "azure" ∨ cfg.provider = "gcp" ∨
      cfg.provider = "digitalocean") :
    ∃ s, CloudProviderService.generateDeploymentScript cfg n = Except.ok s ∧
      (if oidcSelected cfg = true then
        oidcAuthMarker ∈ s ∧ staticAuthMarker cfg.provider ∉ s
      else
        staticAuthMarker cfg.provider ∈ s ∧ oidcAuthMarker ∉ s) := by
  rcases h with hp | hp | hp | hp
  · -- AWS
    refine ⟨CloudProviderService.generateAWSDeploymentScript cfg n,
      by simp [CloudProviderService.generateDeploymentScript, hp], ?_⟩
    cases hb : (cfg.credentials.useOIDC && truthyOptStr cfg.credentials.oidcRoleArn) with
    | true =>
      have hsel : oidcSelected cfg = true := by
        unfold oidcSelected; rw [hp, if_pos rfl]; exact hb
      rw [if_pos hsel]
      constructor
      · simp [CloudProviderService.generateAWSDeploymentScript,
            CloudProviderService.awsServiceUpdateBlock, hb,
          CloudProviderService.awsOidcAuth, oidcAuthMarker]
      · rw [hp, show staticAuthMarker "aws" =
          "    aws configure set aws_access_key_id $\x7bAWS_ACCESS_KEY_ID\x7d" from by decide]
        cases hlb : (cfg.deploymentConfig.useLoadBalancer &&
            truthyOptStr cfg.deploymentConfig.loadBalancerUrl) <;>
        · simp [CloudProviderService.generateAWSDeploymentScript,
            CloudProviderService.awsServiceUpdateBlock,
            CloudProviderService.generateDeployedUrlExport,
            CloudProviderService.awsOidcAuth, hb, hlb, not_or, strAssoc]
          repeat' apply And.intro
          all_goals first
            | decide
            | exact strNeR _ _ _ (by decide)
    | false =>
      have hsel : oidcSelected cfg = false := by
        unfold oidcSelected; rw [hp, if_pos rfl]; exact hb
      rw [if_neg (by simp [hsel])]
      constructor
      · rw [hp, show staticAuthMarker "aws" =
          "    aws configure set aws_access_key_id $\x7bAWS_ACCESS_KEY_ID\x7d" from by decide]
        simp [CloudProviderService.generateAWSDeploymentScript,
            CloudProviderService.awsServiceUpdateBlock, hb,
          CloudProviderService.awsStaticAuth]
      · cases hlb : (cfg.deploymentConfig.useLoadBalancer &&
            truthyOptStr cfg.deploymentConfig.loadBalancerUrl) <;>
        · simp [CloudProviderService.generateAWSDeploymentScript,
            CloudProviderService.awsServiceUpdateBlock,
            CloudProviderService.generateDeployedUrlExport,
            CloudProviderService.awsStaticAuth, hb, hlb, not_or, strAssoc, oidcAuthMarker]
          repeat' apply And.intro
          all_goals first
            | decide
            | exact strNeR _ _ _ (by decide)
  · -- Azure
    refine ⟨CloudProviderService.generateAzureDeploymentScript cfg n,
      by simp [CloudProviderService.generateDeploymentScript, hp], ?_⟩
    cases hb : cfg.credentials.useOIDC with
    | true =>
      have hsel : oidcSelected cfg = true := by
        unfold oidcSelected; rw [hp, if_neg (by decide), if_pos (by decide)]; exact hb
      rw [if_pos hsel]
      constructor
      · simp [CloudProviderService.generateAzureDeploymentScript, hb,
          CloudProviderService.azureOidcAuth, oidcAuthMarker]
      · rw [hp, show staticAuthMarker "azure" =
          "        -p $\x7bAZURE_CLIENT_SECRET\x7d \\" from by decide]
        cases hlb : (cfg.deploymentConfig.useLoadBalancer &&
            truthyOptStr cfg.deploymentConfig.loadBalancerUrl) <;>
        · simp [CloudProviderService.generateAzureDeploymentScript,
            CloudProviderService.generateDeployedUrlExport,
            CloudProviderService.azureOidcAuth, hb, hlb, not_or, strAssoc]
          repeat' apply And.intro
          all_goals first
            | decide
            | exact strNeR _ _ _ (by decide)
    | false =>
      have hsel : oidcSelected cfg = false := by
        unfold oidcSelected; rw [hp, if_neg (by decide), if_pos (by decide)]; exact hb
      rw [if_neg (by simp [hsel])]
      constructor
      · rw [hp, show staticAuthMarker "azure" =
          "        -p $\x7bAZURE_CLIENT_SECRET\x7d \\" from by decide]
        simp [CloudProviderService.generateAzureDeploymentScript, hb,
          CloudProviderService.azureStaticAuth]
      · cases hlb : (cfg.deploymentConfig.useLoadBalancer &&
            truthyOptStr cfg.deploymentConfig.loadBalancerUrl) <;>
        · simp [CloudProviderService.generateAzureDeploymentScript,
            CloudProviderService.generateDeployedUrlExport,
            CloudProviderService.azureStaticAuth, hb, hlb, not_or, strAssoc, oidcAuthMarker]
          repeat' apply And.intro
          all_goals first
            | decide
            | exact strNeR _ _ _ (by decide)
  · -- GCP
    refine ⟨CloudProviderService.generateGCPDeploymentScript cfg n,
      by simp [CloudProviderService.generateDeploymentScript, hp], ?_⟩
    cases hb : cfg.credentials.useOIDC with
    | true =>
      have hsel : oidcSelected cfg = true := by
        unfold oidcSelected; rw [hp, if_neg (by decide), if_pos (by decide)]; exact hb
      rw [if_pos hsel]
      constructor
      · simp [CloudProviderService.generateGCPDeploymentScript, hb,
          CloudProviderService.gcpOidcAuth, oidcAuthMarker]
      · rw [hp, show staticAuthMarker "gcp" =
          "    gcloud auth activate-service-account --key-file=$\x7bGCP_KEY_FILE\x7d" from by
            decide]
        cases hlb : (cfg.deploymentConfig.useLoadBalancer &&
            truthyOptStr cfg.deploymentConfig.loadBalancerUrl) <;>
        · simp [CloudProviderService.generateGCPDeploymentScript,
            CloudProviderService.generateDeployedUrlExport,
            CloudProviderService.gcpOidcAuth, hb, hlb, not_or, strAssoc]
          repeat' apply And.intro
          all_goals first
            | decide
            | exact strNeR _ _ _ (by decide)
    | false =>
      have hsel : oidcSelected cfg = false := by
        unfold oidcSelected; rw [hp, if_neg (by decide), if_pos (by decide)]; exact hb
      rw [if_neg (by simp [hsel])]
      constructor
      · rw [hp, show staticAuthMarker "gcp" =
          "    gcloud auth activate-service-account --key-file=$\x7bGCP_KEY_FILE\x7d" from by
            decide]
        simp [CloudProviderService.generateGCPDeploymentScript, hb,
          CloudProviderService.gcpStaticAuth]
      · cases hlb : (cfg.deploymentConfig.useLoadBalancer &&
            truthyOptStr cfg.deploymentConfig.loadBalancerUrl) <;>
        · simp [CloudProviderService.generateGCPDeploymentScript,
            CloudProviderService.generateDeployedUrlExport,
            CloudProviderService.gcpStaticAuth, hb, hlb, not_or, strAssoc, oidcAuthMarker]
          repeat' apply And.intro
          all_goals first
            | decide
            | exact strNeR _ _ _ (by decide)
  · -- DigitalOcean
    refine ⟨CloudProviderService.generateDigitalOceanDeploymentScript cfg n,
      by simp [CloudProviderService.generateDeploymentScript, hp], ?_⟩
    have hsel : oidcSelected cfg = false := by
      unfold oidcSelected; rw [hp, if_neg (by decide), if_neg (by decide)]
    rw [if_neg (by simp [hsel])]
    constructor
    · rw [hp, show staticAuthMarker "digitalocean" =
        "    doctl auth init --access-token $\x7bDO_API_TOKEN\x7d" from by decide]
      simp [CloudProviderService.generateDigitalOceanDeploymentScript]
    · cases hlb : (cfg.deploymentConfig.useLoadBalancer &&
          truthyOptStr cfg.deploymentConfig.loadBalancerUrl) <;>
      · simp [CloudProviderService.generateDigitalOceanDeploymentScript,
          CloudProviderService.generateDeployedUrlExport, hlb, not_or, strAssoc,
          oidcAuthMarker]
        repeat' apply And.intro
        all_goals first
          | decide
          | exact strNeR _ _ _ (by decide)

theorem claim1_witness :
    ∃ s, CloudProviderService.generateDeploymentScript sampleAwsConfig "app" = Except.ok s ∧
      (if oidcSelected sampleAwsConfig = true then
        oidcAuthMarker ∈ s ∧ staticAuthMarker sampleAwsConfig.provider ∉ s
      else
        staticAuthMarker sampleAwsConfig.provider ∈ s ∧ oidcAuthMarker ∉ s) :=
  claim1_auth_exclusive sampleAwsConfig "app" (Or.inl rfl)

def awsOidcNoArnConfig : CloudConfig :=
  { sampleAwsConfig with credentials := .aws ⟨none, none, "us-east-1", true, none⟩ }

/-- C1 counterexample: an AWS credential variant with `useOIDC = true` but no
`oidcRoleArn` still gets the static-credential authentication block — the
claim that a true `useOIDC` flag suffices to remove every static-credential
line from the output fails on the AWS generator. -/
theorem claim1_counterexample :
    awsOidcNoArnConfig.credentials.useOIDC = true ∧
    CloudProviderService.generateDeploymentScript awsOidcNoArnConfig "app" =
      Except.ok (CloudProviderService.generateAWSDeploymentScript awsOidcNoArnConfig "app") ∧
    staticAuthMarker "aws" ∈
      CloudProviderService.generateAWSDeploymentScript awsOidcNoArnConfig "app" ∧
    oidcAuthMarker ∉
      CloudProviderService.generateAWSDeploymentScript awsOidcNoArnConfig "app" := by
  refine ⟨rfl, rfl, by decide, by decide⟩

/-! ## C2 — deployment-strategy branching -/

theorem countLine_eq_one_of {ls : List String} {m : String} (A B : List String)
    (hd : ls = A ++ m :: B) (hA : m ∉ A) (hB : m ∉ B) : countLine ls m = 1 := by
  subst hd
  rw [countLine_append, show (m :: B) = [m] ++ B from rfl, countLine_append,
    countLine_eq_zero_of_not_mem hA, countLine_eq_zero_of_not_mem hB]
  simp [countLine]

theorem countLine_eq_two_of {ls : List String} {m : String} (A B C : List String)
    (hd : ls = A ++ m :: (B ++ m :: C)) (hA : m ∉ A) (hB : m ∉ B) (hC : m ∉ C) :
    countLine ls m = 2 := by
  subst hd
  rw [countLine_append, show (m :: (B ++ m :: C)) = [m] ++ (B ++ ([m] ++ C)) from rfl,
    countLine_append, countLine_append, countLine_append,
    countLine_eq_zero_of_not_mem hA, countLine_eq_zero_of_not_mem hB,
    countLine_eq_zero_of_not_mem hC]
  simp [countLine]

/-- The forced-new-deployment command of the AWS update block (emitted both
by the blue-green branch and by the rolling fallback branch). -/
def awsForceRedeployLine (n : String) : String :=
  "            aws ecs update-service --cluster " ++ n ++ "-cluster --service " ++ n ++
    "-service --task-definition " ++ n ++ " --force-new-deployment"

/-- The canary command of the AWS update block: desired capacity one above
the configured minimum. -/
def awsCanaryLine (n : String) (minInstances : Option Nat) : String :=
  "            aws ecs update-service --cluster " ++ n ++ "-cluster --service " ++ n ++
    "-service --task-definition " ++ n ++ " --desired-count $(( " ++
    toString (jsOrNat minInstances 1) ++ " + 1 ))"

theorem awsUpdateBlock_canary_count (n strat : String) (minI : Option Nat) :
    countLine (CloudProviderService.awsServiceUpdateBlock n strat minI)
      (awsCanaryLine n minI) = 1 := by
  apply countLine_eq_one_of
    (A := ["    if [ \"$SERVICE_EXISTS\" != \"ACTIVE\" ]; then",
      "        echo \"Creating new ECS service...\"",
      "        aws ecs create-service \\",
      "            --cluster " ++ n ++ "-cluster \\",
      "            --service-name " ++ n ++ "-service \\",
      "            --task-definition " ++ n ++ " \\",
      "            --desired-count " ++ toString (jsOrNat minI 1) ++ " \\",
      "            --launch-type FARGATE \\",
      "            --network-configuration \"awsvpcConfiguration=\x7bsubnets=[$\x7bSUBNET_IDS\x7d], securityGroups=[$\x7bSECURITY_GROUP_IDS\x7d], assignPublicIp=ENABLED\x7d\"",
      "    else",
      "        echo \"Updating existing ECS service with " ++ strat ++ " strategy...\"",
      "        if [ \"" ++ strat ++ "\" == \"blue-green\" ]; then",
      "            echo \"Performing Blue-Green deployment...\"",
      "            # Simulating blue-green by creating/updating a \x27green\x27 version",
      "            aws ecs update-service --cluster " ++ n ++ "-cluster --service " ++ n
        ++ "-service --task-definition " ++ n ++ " --force-new-deployment",
      "        elif [ \"" ++ strat ++ "\" == \"canary\" ]; then",
      "            echo \"Performing Canary deployment (10% traffic)...\""])
    (B := ["        else",
      "            aws ecs update-service --cluster " ++ n ++ "-cluster --service " ++ n
        ++ "-service --task-definition " ++ n ++ " --force-new-deployment",
      "        fi",
      "    fi"])
  · simp [CloudProviderService.awsServiceUpdateBlock, awsCanaryLine]
  · simp only [awsCanaryLine, List.mem_cons, List.not_mem_nil, or_false, not_or, strAssoc]
    repeat' apply And.intro
    all_goals first
      | decide
      | exact strNeL _ _ _ (by decide)
      | exact strNe _ _ _ _ (by decide)
      | (repeat' apply strCancel
         first
           | exact strNeL _ _ _ (by decide)
           | exact strNeR _ _ _ (by decide)
           | exact strNe _ _ _ _ (by decide))
  · simp only [awsCanaryLine, List.mem_cons, List.not_mem_nil, or_false, not_or, strAssoc]
    repeat' apply And.intro
    all_goals first
      | decide
      | exact strNeL _ _ _ (by decide)
      | exact strNe _ _ _ _ (by decide)
      | (repeat' apply strCancel
         first
           | exact strNeL _ _ _ (by decide)
           | exact strNeR _ _ _ (by decide)
           | exact strNe _ _ _ _ (by decide))

theorem awsUpdateBlock_force_count (n strat : String) (minI : Option Nat) :
    countLine (CloudProviderService.awsServiceUpdateBlock n strat minI)
      (awsForceRedeployLine n) = 2 := by
  apply countLine_eq_two_of
    (A := ["    if [ \"$SERVICE_EXISTS\" != \"ACTIVE\" ]; then",
      "        echo \"Creating new ECS service...\"",
      "        aws ecs create-service \\",
      "            --cluster " ++ n ++ "-cluster \\",
      "            --service-name " ++ n ++ "-service \\",
      "            --task-definition " ++ n ++ " \\",
      "            --desired-count " ++ toString (jsOrNat minI 1) ++ " \\",
      "            --launch-type FARGATE \\",
      "            --network-configuration \"awsvpcConfiguration=\x7bsubnets=[$\x7bSUBNET_IDS\x7d], securityGroups=[$\x7bSECURITY_GROUP_IDS\x7d], assignPublicIp=ENABLED\x7d\"",
      "    else",
      "        echo \"Updating existing ECS service with " ++ strat ++ " strategy...\"",
      "        if [ \"" ++ strat ++ "\" == \"blue-green\" ]; then",
      "            echo \"Performing Blue-Green deployment...\"",
      "            # Simulating blue-green by creating/updating a \x27green\x27 version"])
    (B := ["        elif [ \"" ++ strat ++ "\" == \"canary\" ]; then",
      "            echo \"Performing Canary deployment (10% traffic)...\"",
      "            aws ecs update-service --cluster " ++ n ++ "-cluster --service " ++ n
        ++ "-service --task-definition " ++ n ++ " --desired-count $(( "
        ++ toString (jsOrNat minI 1) ++ " + 1 ))",
      "        else"])
    (C := ["        fi", "    fi"])
  · simp [CloudProviderService.awsServiceUpdateBlock, awsForceRedeployLine]
  · simp only [awsForceRedeployLine, List.mem_cons, List.not_mem_nil, or_false, not_or,
      strAssoc]
    repeat' apply And.intro
    all_goals first
      | decide
      | exact strNeL _ _ _ (by decide)
      | exact strNe _ _ _ _ (by decide)
      | (repeat' apply strCancel
         first
           | exact strNeL _ _ _ (by decide)
           | exact strNeR _ _ _ (by decide)
           | exact strNe _ _ _ _ (by decide))
  · simp only [awsForceRedeployLine, List.mem_cons, List.not_mem_nil, or_false, not_or,
      strAssoc]
    repeat' apply And.intro
    all_goals first
      | decide
      | exact strNeL _ _ _ (by decide)
      | exact strNe _ _ _ _ (by decide)
      | (repeat' apply strCancel
         first
           | exact strNeL _ _ _ (by decide)
           | exact strNeR _ _ _ (by decide)
           | exact strNe _ _ _ _ (by decide))
  · simp only [awsForceRedeployLine, List.mem_cons, List.not_mem_nil, or_false, not_or,
      strAssoc]
    repeat' apply And.intro
    all_goals first
      | decide
      | exact strNeL _ _ _ (by decide)
      | exact strNe _ _ _ _ (by decide)

/-- C2 (amended): only the AWS generator's update/deploy block branches on
the deployment strategy, and the branch is taken at script run time, so the
emitted block text carries all three branches whatever the configured
strategy: the canary desired-capacity command occurs exactly once and the
forced-new-deployment command exactly twice (the blue-green branch and the
rolling fallback emit the same command); both occur in the full AWS script.
The Azure, GCP and DigitalOcean scripts do not branch on the strategy at
all: their output is unchanged under any change of `deploymentStrategy`. -/
theorem claim2_strategy_commands (cfg : CloudConfig) (n s1 s2 : String) :
    countLine (CloudProviderService.awsServiceUpdateBlock n
        cfg.deploymentConfig.deploymentStrategy cfg.deploymentConfig.minInstances)
      (awsCanaryLine n cfg.deploymentConfig.minInstances) = 1 ∧
    countLine (CloudProviderService.awsServiceUpdateBlock n
        cfg.deploymentConfig.deploymentStrategy cfg.deploymentConfig.minInstances)
      (awsForceRedeployLine n) = 2 ∧
    awsCanaryLine n cfg.deploymentConfig.minInstances ∈
      CloudProviderService.generateAWSDeploymentScript cfg n ∧
    awsForceRedeployLine n ∈ CloudProviderService.generateAWSDeploymentScript cfg n ∧
    CloudProviderService.generateAzureDeploymentScript
        { cfg with deploymentConfig :=
            { cfg.deploymentConfig with deploymentStrategy := s1 } } n =
      CloudProviderService.generateAzureDeploymentScript
        { cfg with deploymentConfig :=
            { cfg.deploymentConfig with deploymentStrategy := s2 } } n ∧
    CloudProviderService.generateGCPDeploymentScript
        { cfg with deploymentConfig :=
            { cfg.deploymentConfig with deploymentStrategy := s1 } } n =
      CloudProviderService.generateGCPDeploymentScript
        { cfg with deploymentConfig :=
            { cfg.deploymentConfig with deploymentStrategy := s2 } } n ∧
    CloudProviderService.generateDigitalOceanDeploymentScript
        { cfg with deploymentConfig :=
            { cfg.deploymentConfig with deploymentStrategy := s1 } } n =
      CloudProviderService.generateDigitalOceanDeploymentScript
        { cfg with deploymentConfig :=
            { cfg.deploymentConfig with deploymentStrategy := s2 } } n := by
  refine ⟨awsUpdateBlock_canary_count n _ _, awsUpdateBlock_force_count n _ _, ?_, ?_,
    rfl, rfl, rfl⟩
  · simp [CloudProviderService.generateAWSDeploymentScript,
      CloudProviderService.awsServiceUpdateBlock, awsCanaryLine]
  · simp [CloudProviderService.generateAWSDeploymentScript,
      CloudProviderService.awsServiceUpdateBlock, awsForceRedeployLine]

def gcpCanaryConfig : CloudConfig :=
  { gcpNoScaleConfig with deploymentConfig :=
      { gcpNoScaleConfig.deploymentConfig with deploymentStrategy := "canary" } }

def gcpRollingConfig : CloudConfig :=
  { gcpNoScaleConfig with deploymentConfig :=
      { gcpNoScaleConfig.deploymentConfig with deploymentStrategy := "rolling" } }

/-- C2 counterexample: the GCP deployment script does not branch on the
deployment strategy — a canary configuration and a rolling configuration
yield the identical script, and the canary configuration's script contains
no desired-capacity-increase command at all (so not "exactly once"). -/
theorem claim2_counterexample :
    gcpCanaryConfig.deploymentConfig.deploymentStrategy = "canary" ∧
    gcpRollingConfig.deploymentConfig.deploymentStrategy = "rolling" ∧
    CloudProviderService.generateGCPDeploymentScript gcpCanaryConfig "app" =
      CloudProviderService.generateGCPDeploymentScript gcpRollingConfig "app" ∧
    (CloudProviderService.generateGCPDeploymentScript gcpCanaryConfig "app").any
        (fun l => strContainsSub l "--desired-count") = false ∧
    (CloudProviderService.generateGCPDeploymentScript gcpCanaryConfig "app").any
        (fun l => strContainsSub l " + 1 ))") = false := by
  decide
